import Mathlib

/-!
Shallow embedding of `src/kaudruck.py` (class `KauDruck`): a bite-force
("Kaudruck") analysis pipeline over a photographed pressure film.

Modelling conventions:
* numpy float64 values are modelled as rationals (`ℚ`); the transcendental
  `np.exp` is carried as an explicit function parameter `exp : ℚ → ℚ`,
  since the claims never depend on its analytic properties;
* 2D numpy arrays are `List (List _)` (row major, like the source);
* numpy's NaN sentinel ("missing" cells, and the NaN produced by a 0/0
  division) is modelled as `Option _` with `none` standing for NaN;
* Python slicing `img[y:y+h, x:x+w]`, which silently clips at the array
  boundary, is modelled by `List.drop`/`List.take` (which clip the same way);
* the fitted models are opaque calibration data: the degree-2 polynomial
  coefficients produced by `np.polyfit`/`np.poly1d` and the exponential
  parameters `(a, b, c)` produced by `scipy.optimize.curve_fit` are carried
  as session parameters (the fitting itself reads external table files and
  is not part of any claim);
* the mutable `KauDruck` object is a `Session` record; methods that assign
  attributes on `self` become functions `Session → Session` (or
  `Session → Option Session` where the Python would raise on `None`).
-/

/-- One RGB pixel, channel values already scaled to `[0, 1]`
(`self.img = self.img / 255` in `__init__`). -/
structure RGB where
  r : ℚ
  g : ℚ
  b : ℚ
deriving Repr, DecidableEq

/-- A rectangular image region: row-major list of rows of pixels. -/
abbrev Region := List (List RGB)

/-- A scalar field (intensity values), same layout as its source region. -/
abbrev IntensityField := List (List ℚ)

/-- Embeds `aoi[:,:,1].copy()`: the green-channel plane of a region. -/
def green_plane (aoi : Region) : IntensityField :=
  aoi.map (fun row => row.map RGB.g)

/-- Embeds `aoi[:,:,2].copy()`: the blue-channel plane of a region. -/
def blue_plane (aoi : Region) : IntensityField :=
  aoi.map (fun row => row.map RGB.b)

/-- Elementwise combination of two equally shaped planes
(numpy broadcast arithmetic on two arrays). -/
def ew2 (f : ℚ → ℚ → ℚ) (A B : IntensityField) : IntensityField :=
  List.zipWith (fun ra rb => List.zipWith f ra rb) A B

/-- Embeds `KauDruck.compute_intensitat`: `intensity = ((1-green) + (1-blue)) / 2`
computed on copies of the green and blue channel planes; the red channel is
never read. -/
def compute_intensitat (aoi : Region) : IntensityField :=
  ew2 (fun g b => ((1 - g) + (1 - b)) / 2) (green_plane aoi) (blue_plane aoi)

/-- The aggregate analyzer's threshold mask on one cell:
`m = intensity < threshold; intensity[m] = 0` (`compute_results`). -/
def agg_mask (threshold v : ℚ) : ℚ :=
  if v < threshold then 0 else v

/-- The pixelwise analyzer's threshold mask on one cell:
`m = intensity < threshold; intensity[m] = nan` (`compute_force_pixelwise`);
NaN is `none`. -/
def pw_mask (threshold v : ℚ) : Option ℚ :=
  if v < threshold then none else some v

/-- The aggregate analyzer's masked intensity array. -/
def masked_intensity (threshold : ℚ) (intensity : IntensityField) : IntensityField :=
  intensity.map (fun row => row.map (agg_mask threshold))

/-- Embeds `KauDruck.compute_results`: masks the intensity field, then returns
`(flaeche, farbgewicht, quotient)` = (count of cells `> 0`, sum of all cells,
their ratio).  numpy's `0/0 = nan` (the `flaeche = 0` case) is modelled as a
`none` quotient; the source raises no exception on that path. -/
def compute_results (threshold : ℚ) (aoi : Region) : ℕ × ℚ × Option ℚ :=
  let intensity := masked_intensity threshold (compute_intensitat aoi)
  let flaeche : ℕ := (intensity.map (fun row => (row.filter (fun v => 0 < v)).length)).sum
  let farbgewicht := (intensity.map (fun row => row.sum)).sum
  let quotient := if flaeche = 0 then none else some (farbgewicht / (flaeche : ℚ))
  (flaeche, farbgewicht, quotient)

/-- Embeds `KauDruck._model_func`: `a * np.exp(b * x) + c`, with `np.exp` as the
explicit parameter `exp`. -/
def model_func (exp : ℚ → ℚ) (x a b c : ℚ) : ℚ :=
  a * exp (b * x) + c

/-- Embeds the body of `KauDruck.compute_force_pixelwise`,  after the intensity was computed:
threshold-mask to NaN, apply `_model_func` elementwise (NaN propagates), then,
when a maximum force is configured, mask cells with `force > maximum` to NaN
(NaN compares false there under the source's errstate guard). -/
def force_map_of_intensity (exp : ℚ → ℚ) (a b c threshold : ℚ)
    (force_maximum_correction : Option ℚ) (intensity : IntensityField) :
    List (List (Option ℚ)) :=
  let masked := intensity.map (fun row => row.map (pw_mask threshold))
  let force := masked.map (fun row => row.map (Option.map (fun x => model_func exp x a b c)))
  match force_maximum_correction with
  | none => force
  | some mf => force.map (fun row => row.map (fun f =>
      match f with
      | none => none
      | some v => if mf < v then none else some v))

/-- Embeds `KauDruck.compute_force_pixelwise`: computes the intensity of the region
and feeds it through the masking / calibration / clipping stages. -/
def compute_force_pixelwise (exp : ℚ → ℚ) (a b c threshold : ℚ)
    (force_maximum_correction : Option ℚ) (aoi : Region) :
    List (List (Option ℚ)) :=
  force_map_of_intensity exp a b c threshold force_maximum_correction
    (compute_intensitat aoi)

/-- Embeds `KauDruck.compute_kaudruck`: `(weight_aoi / weight_aor) * force_aor`. -/
def compute_kaudruck (weight_aoi weight_aor force_aor : ℚ) : ℚ :=
  (weight_aoi / weight_aor) * force_aor

/-- Embeds `KauDruck.compute_area_mm`: `((25.4/800)**2 * area_pixel) / self.area_corr_fact`. -/
def compute_area_mm (area_corr_fact area_pixel : ℚ) : ℚ :=
  ((25.4 / 800) ^ 2 * area_pixel) / area_corr_fact

/-- Embeds `KauDruck.compute_pressure`: `force / area`. -/
def compute_pressure (force area : ℚ) : ℚ :=
  force / area

/-- Evaluation of the fitted degree-2 `np.poly1d` force-correction model:
`p(x) = c2*x^2 + c1*x + c0` for the coefficients returned by
`np.polyfit(x, y, 2)`. -/
def poly1d_eval (c2 c1 c0 x : ℚ) : ℚ :=
  c2 * x ^ 2 + c1 * x + c0

/-- Embeds `KauDruck.crop_img`: the cropped sub-array `img[xy[1]:xy[1]+height,
xy[0]:xy[0]+width]` (Python slices clip silently at the boundary, as
`drop`/`take` do), together with the boundary polygon, a list of four line
segments `(x-range, y-range)` in the order left, upper, right, lower. -/
def crop_img {α : Type} (img : List (List α)) (xy : ℕ × ℕ) (height width : ℕ) :
    List (List α) × List ((ℕ × ℕ) × (ℕ × ℕ)) :=
  let img_cropped := ((img.drop xy.2).take height).map
    (fun row => (row.drop xy.1).take width)
  let bb_left := ((xy.1, xy.1), (xy.2, xy.2 + height))
  let bb_upper := ((xy.1, xy.1 + width), (xy.2, xy.2))
  let bb_right := ((xy.1 + width, xy.1 + width), (xy.2, xy.2 + height))
  let bb_lower := ((xy.1, xy.1 + width), (xy.2 + height, xy.2 + height))
  (img_cropped, [bb_left, bb_upper, bb_right, bb_lower])

/-- Reading a boundary polygon's corners back: the origin is the left
segment's start corner, the height is the extent of the left segment's
y-range, the width the extent of the upper segment's x-range. -/
def bb_read (bb : List ((ℕ × ℕ) × (ℕ × ℕ))) : (ℕ × ℕ) × ℕ × ℕ :=
  match bb with
  | left :: upper :: _ =>
      ((left.1.1, left.2.1), left.2.2 - left.2.1, upper.1.2 - upper.1.1)
  | _ => ((0, 0), 0, 0)

/-- The mutable state of a `KauDruck` object.  Base fields are set in
`__init__` / by setters; the fields after `force_pixelwise` are the derived
attributes that `run_analysis` assigns on `self` (absent, i.e. `none`, until
it runs).  The fitted calibration models are carried as their parameters:
`fc_c2, fc_c1, fc_c0` for `force_correction_model` and `pw_a, pw_b, pw_c`
for `pixel_weight_correction_model`. -/
structure Session where
  img : Region
  aoi : Region
  aor : Option Region
  threshold : ℚ
  area_corr_fact : ℚ
  force_aor : ℚ
  force_maximum_correction : Option ℚ
  fc_c2 : ℚ
  fc_c1 : ℚ
  fc_c0 : ℚ
  pw_a : ℚ
  pw_b : ℚ
  pw_c : ℚ
  force_pixelwise : Option (List (List (Option ℚ))) := none
  aor_area : Option ℕ := none
  aor_color_weight : Option ℚ := none
  aor_color_weight_area_ratio : Option (Option ℚ) := none
  aor_pressure : Option ℚ := none
  aoi_area : Option ℕ := none
  aoi_color_weight : Option ℚ := none
  aoi_color_weight_area_ratio : Option (Option ℚ) := none
  force_aoi : Option ℚ := none
  aoi_pressure : Option ℚ := none
  force_aoi_corrected : Option ℚ := none
  aoi_pressure_corrected : Option ℚ := none

/-- Embeds `KauDruck.set_schwelle`: assigns `self.threshold` and nothing else. -/
def set_schwelle (s : Session) (threshold : ℚ) : Session :=
  { s with threshold := threshold }

/-- Embeds `KauDruck.set_maximum_force`: assigns `self.force_maximum_correction`
and nothing else. -/
def set_maximum_force (s : Session) (maximum_force : ℚ) : Session :=
  { s with force_maximum_correction := some maximum_force }

/-- Embeds `KauDruck.set_area_corr_fact`: assigns `self.area_corr_fact`. -/
def set_area_corr_fact (s : Session) (corr_fact : ℚ) : Session :=
  { s with area_corr_fact := corr_fact }

/-- Embeds `KauDruck.set_aor_force`: assigns `self.force_aor`. -/
def set_aor_force (s : Session) (force_N : ℚ) : Session :=
  { s with force_aor := force_N }

/-- Embeds `KauDruck.compute_force_pixelwise` as a state transformer: stores the
computed map in `self.force_pixelwise` (default call, `aoi=None`, so the
session's own AOI is used). -/
def compute_force_pixelwise_session (exp : ℚ → ℚ) (s : Session) : Session :=
  { s with force_pixelwise := some (compute_force_pixelwise exp s.pw_a s.pw_b s.pw_c
      s.threshold s.force_maximum_correction s.aoi) }

/-- Embeds `KauDruck.run_analysis`: AOR stage then AOI stage, assigning the derived
attributes on the session.  When `self.aor` is `None` the Python call
`compute_results(aoi=self.aor)` raises (`None` is not subscriptable), which is
modelled as `none`. -/
def run_analysis (s : Session) : Option Session :=
  match s.aor with
  | none => none
  | some aorRegion =>
    let aorR := compute_results s.threshold aorRegion
    let area_aor_corrected := compute_area_mm s.area_corr_fact (aorR.1 : ℚ)
    let aor_pressure := compute_pressure s.force_aor area_aor_corrected
    let aoiR := compute_results s.threshold s.aoi
    let area_aoi_corrected := compute_area_mm s.area_corr_fact (aoiR.1 : ℚ)
    let force_aoi := compute_kaudruck aoiR.2.1 aorR.2.1 s.force_aor
    let aoi_pressure := compute_pressure force_aoi area_aoi_corrected
    let force_aoi_corrected := poly1d_eval s.fc_c2 s.fc_c1 s.fc_c0 force_aoi
    let aoi_pressure_corrected := compute_pressure force_aoi_corrected area_aoi_corrected
    some { s with
      aor_area := some aorR.1
      aor_color_weight := some aorR.2.1
      aor_color_weight_area_ratio := some aorR.2.2
      aor_pressure := some aor_pressure
      aoi_area := some aoiR.1
      aoi_color_weight := some aoiR.2.1
      aoi_color_weight_area_ratio := some aoiR.2.2
      force_aoi := some force_aoi
      aoi_pressure := some aoi_pressure
      force_aoi_corrected := some force_aoi_corrected
      aoi_pressure_corrected := some aoi_pressure_corrected }

/-- A concrete session used by witnesses: a one-pixel fully dark AOI and AOR
(intensity `1`), default threshold `0.3`, reference force `50`. -/
def sampleSession : Session where
  img := [[RGB.mk 0 0 0]]
  aoi := [[RGB.mk 0 0 0]]
  aor := some [[RGB.mk 0 0 0]]
  threshold := 3 / 10
  area_corr_fact := 1
  force_aor := 50
  force_maximum_correction := none
  fc_c2 := 1
  fc_c1 := 0
  fc_c0 := 0
  pw_a := 1
  pw_b := 1
  pw_c := 0

/-! ## Claim theorems -/

/-- C4: `compute_area_mm` returns exactly `(25.4/800)^2 * area_pixels /
area_corr_fact` for every pixel count and positive correction factor, and in
particular maps `800*800` pixels at correction factor `1` to `25.4 * 25.4`
square millimetres. -/
theorem compute_area_mm_spec (area_pixel area_corr_fact : ℚ)
    (h : 0 < area_corr_fact) :
    compute_area_mm area_corr_fact area_pixel
        = (25.4 / 800) ^ 2 * area_pixel / area_corr_fact ∧
      compute_area_mm 1 (800 * 800) = 25.4 * 25.4 := by
  constructor
  · rfl
  · norm_num [compute_area_mm]

theorem compute_area_mm_spec_witness :
    compute_area_mm 1 1 = (25.4 / 800) ^ 2 * 1 / 1 ∧
      compute_area_mm 1 (800 * 800) = 25.4 * 25.4 :=
  compute_area_mm_spec 1 1 (by norm_num)

/-- C8 (counter-evidence): none of the four configuration setters touches the
cached `force_pixelwise` map — the cache computed under the prior
configuration stays readable after the setter call. -/
theorem setters_keep_cached_force_pixelwise (s : Session) (t cf fN mf : ℚ) :
    (set_schwelle s t).force_pixelwise = s.force_pixelwise ∧
      (set_maximum_force s mf).force_pixelwise = s.force_pixelwise ∧
      (set_area_corr_fact s cf).force_pixelwise = s.force_pixelwise ∧
      (set_aor_force s fN).force_pixelwise = s.force_pixelwise ∧
      (set_schwelle s t).threshold = t :=
  ⟨rfl, rfl, rfl, rfl, rfl⟩

/-- C7 (counter-evidence): cropping a 2x2 image at origin `(1,1)` with
requested height 2 and width 2 silently yields a clipped 1x1 region; no
error value exists on this path. -/
theorem crop_img_clips_out_of_bounds :
    (crop_img [[(1 : ℚ), 2], [3, 4]] (1, 1) 2 2).1 = [[4]] := rfl

/-- C3 (counter-evidence): on a region whose every cell has intensity below
the threshold `0.3`, `compute_results` returns normally with
`flaeche = 0`, `farbgewicht = 0` and a NaN quotient (the `0/0` division,
modelled `none`); no `EmptyRegionError` is raised. -/
theorem compute_results_all_below_threshold :
    compute_results (3 / 10)
        [[RGB.mk 1 1 1, RGB.mk 1 (9 / 10) 1], [RGB.mk 1 1 (9 / 10), RGB.mk 1 1 1]]
      = (0, 0, none) := by
  norm_num [compute_results, masked_intensity, compute_intensitat, ew2,
    green_plane, blue_plane, agg_mask]

/-- C6: the boundary polygon of every crop has exactly 4 segments, in the
order left, upper (top), right, lower (bottom), each a pair of
`(x-range, y-range)` coordinate pairs, and reading the corners back via
`bb_read` reproduces the original origin, height and width. -/
theorem crop_img_bb_spec {α : Type} (img : List (List α)) (xy : ℕ × ℕ)
    (height width : ℕ) :
    (crop_img img xy height width).2.length = 4 ∧
      (crop_img img xy height width).2
        = [((xy.1, xy.1), (xy.2, xy.2 + height)),
           ((xy.1, xy.1 + width), (xy.2, xy.2)),
           ((xy.1 + width, xy.1 + width), (xy.2, xy.2 + height)),
           ((xy.1, xy.1 + width), (xy.2 + height, xy.2 + height))] ∧
      bb_read (crop_img img xy height width).2 = (xy, height, width) := by
  refine ⟨rfl, rfl, ?_⟩
  simp [crop_img, bb_read]

/-- Fusing two nested elementwise maps over a 2D array. -/
theorem map_map_fuse {α β γ : Type} (f : α → β) (g : β → γ) (l : List (List α)) :
    (l.map (fun row => row.map f)).map (fun row => row.map g)
      = l.map (fun row => row.map (fun x => g (f x))) := by
  simp [List.map_map, Function.comp_def]

/-- Zipping two per-pixel channel planes of the same region fuses to a single
per-pixel map. -/
theorem zip_same_fuse (f : ℚ → ℚ → ℚ) (g b : RGB → ℚ) (row : List RGB) :
    List.zipWith f (row.map g) (row.map b) = row.map (fun p => f (g p) (b p)) := by
  induction row with
  | nil => rfl
  | cons p rest ih => simp only [List.map_cons, List.zipWith_cons_cons, ih]

/-- `compute_intensitat` acts per pixel: each cell is
`((1 - green) + (1 - blue)) / 2` of the corresponding pixel. -/
theorem compute_intensitat_eq_map (aoi : Region) :
    compute_intensitat aoi
      = aoi.map (fun row => row.map (fun p => ((1 - p.g) + (1 - p.b)) / 2)) := by
  unfold compute_intensitat ew2 green_plane blue_plane
  induction aoi with
  | nil => rfl
  | cons row rest ih =>
      simp only [List.map_cons, List.zipWith_cons_cons]
      rw [zip_same_fuse, ih]

/-- C5: the intensity computer is a pure function of the green and blue
channel planes only (two regions agreeing there get equal intensity fields,
whatever their red channels hold), and each cell equals
`((1 - green) + (1 - blue)) / 2` for that cell's pixel. -/
theorem compute_intensitat_spec (a1 a2 : Region)
    (hg : green_plane a1 = green_plane a2)
    (hb : blue_plane a1 = blue_plane a2) :
    compute_intensitat a1 = compute_intensitat a2 ∧
      compute_intensitat a1
        = a1.map (fun row => row.map (fun p => ((1 - p.g) + (1 - p.b)) / 2)) := by
  constructor
  · unfold compute_intensitat
    rw [hg, hb]
  · exact compute_intensitat_eq_map a1

theorem compute_intensitat_spec_witness :
    compute_intensitat [[RGB.mk 0 (1 / 2) (1 / 4)]]
        = compute_intensitat [[RGB.mk 1 (1 / 2) (1 / 4)]] ∧
      compute_intensitat [[RGB.mk 0 (1 / 2) (1 / 4)]]
        = [[RGB.mk 0 (1 / 2) (1 / 4)]].map
            (fun row => row.map (fun p => ((1 - p.g) + (1 - p.b)) / 2)) :=
  compute_intensitat_spec [[RGB.mk 0 (1 / 2) (1 / 4)]] [[RGB.mk 1 (1 / 2) (1 / 4)]]
    rfl rfl

/-- C2: on the intensity field of a region, the pixelwise force map marks
every cell with intensity below the threshold as missing; every surviving
cell holds exactly `a * exp (b * intensity) + c`; and when a maximum-force
clip is configured, every cell whose computed force exceeds the clip is also
marked missing. -/
theorem compute_force_pixelwise_spec (exp : ℚ → ℚ) (a b c threshold : ℚ)
    (clip : Option ℚ) (aoi : Region) :
    compute_force_pixelwise exp a b c threshold clip aoi
      = (compute_intensitat aoi).map (fun row => row.map (fun v =>
          if v < threshold then none
          else
            match clip with
            | none => some (model_func exp v a b c)
            | some mf =>
                if mf < model_func exp v a b c then none
                else some (model_func exp v a b c))) := by
  unfold compute_force_pixelwise force_map_of_intensity
  cases clip with
  | none =>
      dsimp only
      rw [map_map_fuse]
      have hfun : (fun v => Option.map (fun x => model_func exp x a b c) (pw_mask threshold v))
          = fun v : ℚ => if v < threshold then none else some (model_func exp v a b c) := by
        funext v
        by_cases h : v < threshold <;> simp [pw_mask, h]
      simp only [hfun]
  | some mf =>
      dsimp only
      rw [map_map_fuse, map_map_fuse]
      have hfun : (fun v : ℚ =>
            match Option.map (fun x => model_func exp x a b c) (pw_mask threshold v) with
            | none => (none : Option ℚ)
            | some w => if mf < w then none else some w)
          = fun v : ℚ => if v < threshold then none
              else if mf < model_func exp v a b c then none
                else some (model_func exp v a b c) := by
        funext v
        by_cases h : v < threshold <;> simp [pw_mask, h]
      simp only [hfun]

/-- C9: both analyzers' threshold masks compare with strict `<`: a cell whose
intensity equals the threshold survives masking (kept as is by the aggregate
mask, kept non-missing by the pixelwise mask); a cell is zeroed/marked
missing by the threshold mask only when it is strictly below the threshold.
On a one-cell field holding exactly the threshold, the aggregate masked field
is unchanged and the pixelwise map (no clip configured) holds the model
value. -/
theorem threshold_mask_strict (exp : ℚ → ℚ) (a b c threshold v : ℚ) :
    (threshold ≤ v → agg_mask threshold v = v ∧ pw_mask threshold v = some v) ∧
      (v < threshold → agg_mask threshold v = 0 ∧ pw_mask threshold v = none) ∧
      (pw_mask threshold v = none ↔ v < threshold) ∧
      masked_intensity threshold [[threshold]] = [[threshold]] ∧
      force_map_of_intensity exp a b c threshold none [[threshold]]
        = [[some (model_func exp threshold a b c)]] := by
  refine ⟨fun h => ?_, fun h => ?_, ?_, ?_, ?_⟩
  · simp [agg_mask, pw_mask, not_lt.mpr h]
  · simp [agg_mask, pw_mask, h]
  · constructor
    · intro h
      by_contra hc
      simp [pw_mask, hc] at h
    · intro h
      simp [pw_mask, h]
  · simp [masked_intensity, agg_mask]
  · simp [force_map_of_intensity, pw_mask]

theorem threshold_mask_strict_witness :
    agg_mask (3 / 10) (3 / 10) = ((3 : ℚ) / 10) ∧
      pw_mask (3 / 10) (3 / 10) = some ((3 : ℚ) / 10) :=
  (threshold_mask_strict id 1 1 0 (3 / 10) (3 / 10)).1 (le_refl _)

/-- C1: for a session with configured AOR (and AOI), `run_analysis` derives
the AOI force as `(aoi_color_weight / aor_color_weight) * force_aor`, applies
the fitted degree-2 force-correction polynomial to it, and computes the raw
pressure as the raw force over the AOI area and the corrected pressure as the
corrected force over the same AOI area. -/
theorem run_analysis_aoi_stage (s : Session) (aorRegion : Region)
    (h : s.aor = some aorRegion) :
    ∃ s', run_analysis s = some s' ∧
      s'.force_aoi = some
        (((compute_results s.threshold s.aoi).2.1
            / (compute_results s.threshold aorRegion).2.1) * s.force_aor) ∧
      s'.force_aoi_corrected = some (poly1d_eval s.fc_c2 s.fc_c1 s.fc_c0
        (((compute_results s.threshold s.aoi).2.1
            / (compute_results s.threshold aorRegion).2.1) * s.force_aor)) ∧
      s'.aoi_pressure = some
        ((((compute_results s.threshold s.aoi).2.1
              / (compute_results s.threshold aorRegion).2.1) * s.force_aor)
          / compute_area_mm s.area_corr_fact
              ((compute_results s.threshold s.aoi).1 : ℚ)) ∧
      s'.aoi_pressure_corrected = some
        (poly1d_eval s.fc_c2 s.fc_c1 s.fc_c0
            (((compute_results s.threshold s.aoi).2.1
                / (compute_results s.threshold aorRegion).2.1) * s.force_aor)
          / compute_area_mm s.area_corr_fact
              ((compute_results s.threshold s.aoi).1 : ℚ)) := by
  unfold run_analysis
  rw [h]
  exact ⟨_, rfl, rfl, rfl, rfl, rfl⟩

theorem run_analysis_aoi_stage_witness :
    ∃ s', run_analysis sampleSession = some s' ∧
      s'.force_aoi = some 50 ∧
      s'.force_aoi_corrected = some 2500 ∧
      s'.aoi_pressure = some (800000000 / 16129) ∧
      s'.aoi_pressure_corrected = some (40000000000 / 16129) := by
  obtain ⟨s', hrun, h1, h2, h3, h4⟩ :=
    run_analysis_aoi_stage sampleSession [[RGB.mk 0 0 0]] rfl
  refine ⟨s', hrun, ?_, ?_, ?_, ?_⟩
  · rw [h1]
    norm_num [compute_results, masked_intensity, compute_intensitat, ew2,
      green_plane, blue_plane, agg_mask, sampleSession]
  · rw [h2]
    norm_num [compute_results, masked_intensity, compute_intensitat, ew2,
      green_plane, blue_plane, agg_mask, poly1d_eval, sampleSession]
  · rw [h3]
    norm_num [compute_results, masked_intensity, compute_intensitat, ew2,
      green_plane, blue_plane, agg_mask, compute_area_mm, sampleSession]
  · rw [h4]
    norm_num [compute_results, masked_intensity, compute_intensitat, ew2,
      green_plane, blue_plane, agg_mask, poly1d_eval, compute_area_mm,
      sampleSession]

/-- C10: running the aggregate analysis or the pixelwise analysis leaves the
stored image, the AOI region and the AOR region of the session unchanged
(the pipelines only read them and write derived fields). -/
theorem analysis_preserves_image_and_regions (exp : ℚ → ℚ) (s : Session) :
    (∀ s', run_analysis s = some s' →
        s'.img = s.img ∧ s'.aoi = s.aoi ∧ s'.aor = s.aor) ∧
      (compute_force_pixelwise_session exp s).img = s.img ∧
      (compute_force_pixelwise_session exp s).aoi = s.aoi ∧
      (compute_force_pixelwise_session exp s).aor = s.aor := by
  refine ⟨?_, rfl, rfl, rfl⟩
  intro s' hrun
  unfold run_analysis at hrun
  cases haor : s.aor with
  | none =>
      rw [haor] at hrun
      exact absurd hrun (by simp)
  | some reg =>
      rw [haor] at hrun
      injection hrun with hrec
      rw [← hrec]
      exact ⟨rfl, rfl, rfl⟩

theorem analysis_preserves_image_and_regions_witness :
    (∃ s', run_analysis sampleSession = some s' ∧
        s'.img = sampleSession.img ∧ s'.aoi = sampleSession.aoi ∧
        s'.aor = sampleSession.aor) ∧
      (compute_force_pixelwise_session id sampleSession).img
        = sampleSession.img := by
  constructor
  · exact ⟨_, rfl,
      (analysis_preserves_image_and_regions id sampleSession).1 _ rfl⟩
  · exact (analysis_preserves_image_and_regions id sampleSession).2.1
